import Mathlib

/-!
Verification of the Marvins code-quality analyzer (`src/lib/analyzer.js`).

The analyzer computes static metrics for a TypeScript file: cyclomatic
complexity per function/method, a simplified Halstead volume, lines of code,
file-level comment density, and a composite maintainability index.

The external parser/tokenizer (the `typescript` package) is treated as a
black-box collaborator, exactly as the design document does: syntax trees and
token streams are inputs of the model.  Every metric function below is a
direct shallow embedding of the corresponding JavaScript function.
-/

namespace Marvins

/-- The syntax-node kinds (`ts.SyntaxKind` values) that the analyzer inspects;
all kinds it never names are collapsed into `OtherKind`, tagged so that
distinct unlisted kinds stay distinct. -/
inductive SyntaxKind where
  | IfStatement
  | ForStatement
  | ForOfStatement
  | ForInStatement
  | WhileStatement
  | DoStatement
  | CaseClause
  | CatchClause
  | ConditionalExpression
  | BinaryExpression
  | FunctionDeclaration
  | MethodDeclaration
  | AmpersandAmpersandToken
  | BarBarToken
  | OtherKind (tag : Nat)
deriving DecidableEq

/-- A syntax-tree node as the analyzer consumes it: its kind, the kind of its
operator token when it is a binary expression, its optional `name` node's
text, its own source text (`getText`), its optional `body`, and the list of
children that `ts.forEachChild` would visit. -/
inductive Node where
  | mk (kind : SyntaxKind) (operatorTokenKind : Option SyntaxKind)
      (name : Option String) (text : String)
      (body : Option Node) (children : List Node)

def Node.kind : Node → SyntaxKind
  | .mk k _ _ _ _ _ => k

def Node.operatorTokenKind : Node → Option SyntaxKind
  | .mk _ op _ _ _ _ => op

def Node.name : Node → Option String
  | .mk _ _ nm _ _ _ => nm

def Node.text : Node → String
  | .mk _ _ _ tx _ _ => tx

def Node.body : Node → Option Node
  | .mk _ _ _ _ bd _ => bd

def Node.children : Node → List Node
  | .mk _ _ _ _ _ cs => cs

/-- Embedding of `isDecisionPoint` (analyzer.js:18-40): a `switch` over the
node kind, then the `ts.isBinaryExpression` / operator-token check. -/
def isDecisionPoint (n : Node) : Bool :=
  match n.kind with
  | .IfStatement => true
  | .ForStatement => true
  | .ForOfStatement => true
  | .ForInStatement => true
  | .WhileStatement => true
  | .DoStatement => true
  | .CaseClause => true
  | .CatchClause => true
  | .ConditionalExpression => true
  | _ =>
    if n.kind = SyntaxKind.BinaryExpression then
      match n.operatorTokenKind with
      | some SyntaxKind.AmpersandAmpersandToken => true
      | some SyntaxKind.BarBarToken => true
      | _ => false
    else false

mutual

/-- Embedding of the inner `visit` closure of `calculateCyclomaticComplexity`
(analyzer.js:47-52): the mutable `complexity` counter becomes an explicit
accumulator threaded through the recursion. -/
def visit : Node → Nat → Nat
  | .mk k op nm tx bd cs, complexity =>
      visitList cs
        (if isDecisionPoint (.mk k op nm tx bd cs) then complexity + 1 else complexity)

/-- `ts.forEachChild(n, visit)`: visit each child in order, threading the
counter. -/
def visitList (l : List Node) (complexity : Nat) : Nat :=
  match l with
  | [] => complexity
  | n :: ns => visitList ns (visit n complexity)

end

/-- Embedding of `calculateCyclomaticComplexity` (analyzer.js:45-55):
counter starts at 1 and `visit` runs on the node itself. -/
def calculateCyclomaticComplexity (n : Node) : Nat :=
  visit n 1

mutual

/-- The pre-order listing of a subtree: the node itself, then the pre-order
listings of its children in order.  Used to state claims about "every node of
the subtree" and about document order. -/
def Node.preorder : Node → List Node
  | .mk k op nm tx bd cs => .mk k op nm tx bd cs :: preorderList cs

def preorderList : List Node → List Node
  | [] => []
  | n :: ns => n.preorder ++ preorderList ns

end

/-- The lexical token kinds (`ts.SyntaxKind` token values) that the Halstead
scanner loop inspects; every token kind the loop's `switch` does not name
falls into `OtherToken` (the `default: break` branch). -/
inductive TokenKind where
  | PlusToken
  | MinusToken
  | AsteriskToken
  | SlashToken
  | PercentToken
  | EqualsEqualsToken
  | EqualsEqualsEqualsToken
  | ExclamationEqualsToken
  | ExclamationEqualsEqualsToken
  | LessThanToken
  | GreaterThanToken
  | LessThanEqualsToken
  | GreaterThanEqualsToken
  | AmpersandAmpersandToken
  | BarBarToken
  | QuestionToken
  | ColonToken
  | PlusPlusToken
  | MinusMinusToken
  | EqualsToken
  | PlusEqualsToken
  | MinusEqualsToken
  | AsteriskEqualsToken
  | SlashEqualsToken
  | PercentEqualsToken
  | Identifier
  | NumericLiteral
  | StringLiteral
  | TrueKeyword
  | FalseKeyword
  | OtherToken (tag : Nat)
deriving DecidableEq

/-- One token of the external scanner's stream: its kind and its literal text
(`scanner.getTokenText()`). -/
structure ScanToken where
  kind : TokenKind
  text : String
deriving DecidableEq

/-- The operator arm of the `switch` in `calculateHalsteadVolume`
(analyzer.js:74-98): the token kinds that fall through to
`totalOperators++`. -/
def isOperatorTokenKind (k : TokenKind) : Bool :=
  match k with
  | .PlusToken => true
  | .MinusToken => true
  | .AsteriskToken => true
  | .SlashToken => true
  | .PercentToken => true
  | .EqualsEqualsToken => true
  | .EqualsEqualsEqualsToken => true
  | .ExclamationEqualsToken => true
  | .ExclamationEqualsEqualsToken => true
  | .LessThanToken => true
  | .GreaterThanToken => true
  | .LessThanEqualsToken => true
  | .GreaterThanEqualsToken => true
  | .AmpersandAmpersandToken => true
  | .BarBarToken => true
  | .QuestionToken => true
  | .ColonToken => true
  | .PlusPlusToken => true
  | .MinusMinusToken => true
  | .EqualsToken => true
  | .PlusEqualsToken => true
  | .MinusEqualsToken => true
  | .AsteriskEqualsToken => true
  | .SlashEqualsToken => true
  | .PercentEqualsToken => true
  | _ => false

/-- The operand arm of the `switch` (analyzer.js:104-108): identifiers,
numeric literals, string literals, `true` and `false`. -/
def isOperandTokenKind (k : TokenKind) : Bool :=
  match k with
  | .Identifier => true
  | .NumericLiteral => true
  | .StringLiteral => true
  | .TrueKeyword => true
  | .FalseKeyword => true
  | _ => false

/-- The four mutable counters of the Halstead scan loop: total operator and
operand counts and the two JS `Set`s of unique lexemes. -/
structure HalsteadState where
  totalOperators : Nat
  totalOperands : Nat
  uniqueOperators : Finset String
  uniqueOperands : Finset String
deriving DecidableEq

/-- One iteration of the `while` loop of `calculateHalsteadVolume`
(analyzer.js:70-117): classify the token and update the counters; token kinds
in neither arm leave the state unchanged. -/
def halsteadStep (s : HalsteadState) (t : ScanToken) : HalsteadState :=
  if isOperatorTokenKind t.kind then
    { s with
      totalOperators := s.totalOperators + 1
      uniqueOperators := insert t.text s.uniqueOperators }
  else if isOperandTokenKind t.kind then
    { s with
      totalOperands := s.totalOperands + 1
      uniqueOperands := insert t.text s.uniqueOperands }
  else s

/-- Embedding of `calculateHalsteadVolume` (analyzer.js:61-122) on the token
stream produced by the external scanner for the source text:
`vocabulary = |uniqueOperators| + |uniqueOperands|`,
`length = totalOperators + totalOperands`,
`volume = vocabulary > 0 ? length * log2(vocabulary) : 0`. -/
noncomputable def calculateHalsteadVolume (tokens : List ScanToken) : ℝ :=
  let s := tokens.foldl halsteadStep ⟨0, 0, ∅, ∅⟩
  let vocabulary := s.uniqueOperators.card + s.uniqueOperands.card
  let length := s.totalOperators + s.totalOperands
  if vocabulary > 0 then (length : ℝ) * Real.logb 2 (vocabulary : ℝ) else 0

/-- Model of the JavaScript `String.prototype.split` builtin for a
single-character separator, on the character list: splitting the empty list
yields one empty segment, and a trailing separator yields a trailing empty
segment, as in JS. -/
def splitOnChar (c : Char) : List Char → List (List Char)
  | [] => [[]]
  | x :: xs =>
    match splitOnChar c xs with
    | [] => [[]]
    | h :: t => if x = c then [] :: h :: t else (x :: h) :: t

/-- Model of the JS `sourceCode.split(sep)` builtin (external runtime
capability) for a one-character separator. -/
def jsSplit (s : String) (c : Char) : List String :=
  (splitOnChar c s.data).map String.mk

/-- Model of the JS `String.prototype.trim` builtin: strip leading and
trailing whitespace. -/
def jsTrim (s : String) : String :=
  String.mk (((s.data.dropWhile Char.isWhitespace).reverse.dropWhile
    Char.isWhitespace).reverse)

/-- Whether `pat` occurs as a contiguous subsequence of the list. -/
def occursIn (pat : List Char) : List Char → Bool
  | [] => pat.isEmpty
  | x :: xs => pat.isPrefixOf (x :: xs) || occursIn pat xs

/-- Model of the JS `String.prototype.startsWith` builtin. -/
def jsStartsWith (s pre : String) : Bool := pre.data.isPrefixOf s.data

/-- Model of the JS `String.prototype.includes` builtin. -/
def jsIncludes (s sub : String) : Bool := occursIn sub.data s.data

/-- Embedding of `calculateLOC` (analyzer.js:127-129):
`sourceCode.split('\n').length`. -/
def calculateLOC (sourceCode : String) : Nat :=
  (jsSplit sourceCode '\n').length

/-- One iteration of the line loop of `calculateCommentDensity`
(analyzer.js:140-155): the state is the pair
(`commentLines`, `inBlockComment`). -/
def commentStep (st : Nat × Bool) (line : String) : Nat × Bool :=
  let trimmed := jsTrim line
  if st.2 then
    (st.1 + 1, if jsIncludes trimmed "*/" then false else true)
  else if jsStartsWith trimmed "//" then
    (st.1 + 1, false)
  else if jsStartsWith trimmed "/*" then
    (st.1 + 1, if !jsIncludes trimmed "*/" then true else false)
  else
    st

/-- The body of `calculateCommentDensity` after `split('\n')`
(analyzer.js:136-156), as a function of the line list: scan the lines, then
`lines.length > 0 ? commentLines / lines.length : 0`. -/
noncomputable def calculateCommentDensityLines (lines : List String) : ℝ :=
  let commentLines := (lines.foldl commentStep (0, false)).1
  if lines.length > 0 then (commentLines : ℝ) / (lines.length : ℝ) else 0

/-- Embedding of `calculateCommentDensity` (analyzer.js:135-157). -/
noncomputable def calculateCommentDensity (sourceCode : String) : ℝ :=
  calculateCommentDensityLines (jsSplit sourceCode '\n')

/-- Embedding of `calculateMaintainabilityIndex` (analyzer.js:167-174). -/
noncomputable def calculateMaintainabilityIndex (cyclomatic halsteadVolume loc
    commentDensity commentDensityMultiplier : ℝ) : ℝ :=
  let safeVolume := if halsteadVolume > 0 then halsteadVolume else 1
  let safeLOC := if loc > 0 then loc else 1
  let baseMI :=
    (171 - 5.2 * Real.log safeVolume - 0.23 * cyclomatic
      - 16.2 * Real.log safeLOC) * 100 / 171
  let bonus :=
    commentDensityMultiplier * Real.sin (Real.sqrt (2.4 * commentDensity))
  max 0 (baseMI + bonus)

/-- One result object pushed by `analyzeMethods` (analyzer.js:212-218). -/
structure MetricRecord where
  methodName : String
  cyclomatic : Nat
  halsteadVolume : ℝ
  loc : Nat
  maintainabilityIndex : ℝ

/-- The record built for a function/method node `n` with body `b`
(analyzer.js:205-218): name falls back to `"<anonymous>"`, complexity is
computed on the body, Halstead volume and LOC on the node's own text, and the
maintainability index from those together with the file-level comment density
and the configured multiplier. -/
noncomputable def methodRecord (tokenize : String → List ScanToken)
    (commentDensity commentDensityMultiplier : ℝ) (n b : Node) : MetricRecord :=
  let methodText := n.text
  let methodName := match n.name with | some s => s | none => "<anonymous>"
  let cyclomatic := calculateCyclomaticComplexity b
  let halsteadVolume := calculateHalsteadVolume (tokenize methodText)
  let loc := calculateLOC methodText
  { methodName := methodName
    cyclomatic := cyclomatic
    halsteadVolume := halsteadVolume
    loc := loc
    maintainabilityIndex :=
      calculateMaintainabilityIndex (cyclomatic : ℝ) halsteadVolume (loc : ℝ)
        commentDensity commentDensityMultiplier }

mutual

/-- Embedding of the inner `traverse` closure of `analyzeMethods`
(analyzer.js:200-222): the mutable `results` array becomes the returned list;
a record is emitted for a function/method declaration with a body, then the
children are traversed in order. -/
noncomputable def traverse (tokenize : String → List ScanToken)
    (commentDensity commentDensityMultiplier : ℝ) : Node → List MetricRecord
  | .mk k op nm tx bd cs =>
    (if k = SyntaxKind.FunctionDeclaration ∨ k = SyntaxKind.MethodDeclaration then
      match bd with
      | some b =>
          [methodRecord tokenize commentDensity commentDensityMultiplier
            (.mk k op nm tx bd cs) b]
      | none => []
    else []) ++ traverseList tokenize commentDensity commentDensityMultiplier cs

/-- `ts.forEachChild(node, traverse)` for the orchestrator. -/
noncomputable def traverseList (tokenize : String → List ScanToken)
    (commentDensity commentDensityMultiplier : ℝ) :
    List Node → List MetricRecord
  | [] => []
  | n :: ns =>
      traverse tokenize commentDensity commentDensityMultiplier n ++
        traverseList tokenize commentDensity commentDensityMultiplier ns

end

/-- Embedding of `analyzeMethods` (analyzer.js:192-226).  The external
collaborators are inputs: `tokenize` is the scanner used by
`calculateHalsteadVolume`, `parse` is `ts.createSourceFile`, and `readResult`
is the outcome of `readSourceFile` (which throws on an unreadable file, here
an `Except.error`).  A thrown read or parse error propagates before any
record is produced. -/
noncomputable def analyzeMethods (tokenize : String → List ScanToken)
    (parse : String → Except String Node) (readResult : Except String String)
    (commentDensityMultiplier : ℝ) :
    Except String (List MetricRecord × ℝ) := do
  let sourceCode ← readResult
  let sourceFile ← parse sourceCode
  let commentDensity := calculateCommentDensity sourceCode
  pure (traverse tokenize commentDensity commentDensityMultiplier sourceFile,
    commentDensity)

/-- `analyzeMethods` as called with the `commentDensityMultiplier` argument
omitted: the JS default parameter `commentDensityMultiplier = 5`
(analyzer.js:192) fills in the value 5. -/
noncomputable def analyzeMethodsDefault (tokenize : String → List ScanToken)
    (parse : String → Except String Node) (readResult : Except String String) :
    Except String (List MetricRecord × ℝ) :=
  analyzeMethods tokenize parse readResult 5

/-- The unique operator lexemes of a token stream. -/
def uniqueOperatorTexts (tokens : List ScanToken) : Finset String :=
  ((tokens.filter (fun t => isOperatorTokenKind t.kind)).map
    ScanToken.text).toFinset

/-- The unique operand lexemes of a token stream. -/
def uniqueOperandTexts (tokens : List ScanToken) : Finset String :=
  ((tokens.filter (fun t => isOperandTokenKind t.kind)).map
    ScanToken.text).toFinset

/-- Halstead vocabulary: unique operator count plus unique operand count. -/
def halsteadVocabulary (tokens : List ScanToken) : Nat :=
  (uniqueOperatorTexts tokens).card + (uniqueOperandTexts tokens).card

/-- Halstead length: total operator count plus total operand count. -/
def halsteadLength (tokens : List ScanToken) : Nat :=
  (tokens.filter (fun t => isOperatorTokenKind t.kind)).length +
    (tokens.filter (fun t => isOperandTokenKind t.kind)).length

/-- The record that the orchestrator's traversal emits for one node, if any:
`some` record for a function/method declaration with a body, `none`
otherwise. -/
noncomputable def analyzeNodeRecord (tokenize : String → List ScanToken)
    (commentDensity commentDensityMultiplier : ℝ) (n : Node) :
    Option MetricRecord :=
  if n.kind = SyntaxKind.FunctionDeclaration ∨
      n.kind = SyntaxKind.MethodDeclaration then
    Option.map (methodRecord tokenize commentDensity commentDensityMultiplier n)
      n.body
  else none

/-- A node of an unlisted kind with no children: a subtree with no decision
points and no function/method declarations. -/
def leafNode : Node := .mk (SyntaxKind.OtherKind 0) none none "" none []

/-- An unnamed function declaration whose body is `leafNode`. -/
def anonFn : Node :=
  .mk SyntaxKind.FunctionDeclaration none none "" (some leafNode) [leafNode]

/-- A trivial scanner fixture: every text tokenizes to the empty stream. -/
def emptyScanner : String → List ScanToken := fun _ => []

/-- A parser fixture that returns the `anonFn` tree for every source text. -/
def parseToAnonFn : String → Except String Node := fun _ => Except.ok anonFn

/-- A parser fixture that returns the `leafNode` tree for every source
text. -/
def parseToLeaf : String → Except String Node := fun _ => Except.ok leafNode

/-! Supporting lemmas -/

mutual

/-- The `visit` accumulator adds the number of decision points in the
pre-order listing of the subtree to its starting value. -/
theorem visit_eq : ∀ (n : Node) (c : Nat),
    visit n c = c + ((Node.preorder n).filter isDecisionPoint).length
  | .mk k op nm tx bd cs, c => by
    have h := visitList_eq cs
      (if isDecisionPoint (.mk k op nm tx bd cs) then c + 1 else c)
    rw [visit, h, Node.preorder]
    by_cases hd : isDecisionPoint (.mk k op nm tx bd cs) <;>
      simp [List.filter_cons, hd] <;> omega

/-- The `visitList` accumulator adds the number of decision points in the
pre-order listing of the forest to its starting value. -/
theorem visitList_eq : ∀ (l : List Node) (c : Nat),
    visitList l c = c + ((preorderList l).filter isDecisionPoint).length
  | [], c => by simp [visitList, preorderList]
  | n :: ns, c => by
    have h1 := visit_eq n c
    have h2 := visitList_eq ns (visit n c)
    rw [visitList, h2, h1, preorderList]
    simp [List.filter_append]
    omega

end

/-- A token kind classified as an operator is not also classified as an
operand. -/
theorem operator_not_operand (k : TokenKind) :
    isOperatorTokenKind k = true → isOperandTokenKind k = false := by
  cases k <;> simp [isOperatorTokenKind, isOperandTokenKind]

/-- Closed form of the Halstead scan loop: totals count the classified
tokens and the unique sets collect their texts. -/
theorem foldl_halsteadStep (l : List ScanToken) (s : HalsteadState) :
    l.foldl halsteadStep s =
      { totalOperators := s.totalOperators +
          (l.filter (fun t => isOperatorTokenKind t.kind)).length
        totalOperands := s.totalOperands +
          (l.filter (fun t => isOperandTokenKind t.kind)).length
        uniqueOperators := s.uniqueOperators ∪
          ((l.filter (fun t => isOperatorTokenKind t.kind)).map
            ScanToken.text).toFinset
        uniqueOperands := s.uniqueOperands ∪
          ((l.filter (fun t => isOperandTokenKind t.kind)).map
            ScanToken.text).toFinset } := by
  induction l generalizing s with
  | nil => simp
  | cons t ts ih =>
    rw [List.foldl_cons, ih]
    by_cases h1 : isOperatorTokenKind t.kind
    · have h2 := operator_not_operand t.kind h1
      simp [halsteadStep, h1, h2, List.filter_cons, Finset.union_insert]
      omega
    · by_cases h2 : isOperandTokenKind t.kind
      · simp [halsteadStep, h1, h2, List.filter_cons, Finset.union_insert]
        omega
      · simp [halsteadStep, h1, h2, List.filter_cons]

/-- `calculateHalsteadVolume` in terms of the closed-form counts. -/
theorem calculateHalsteadVolume_eq (tokens : List ScanToken) :
    calculateHalsteadVolume tokens =
      if 0 < halsteadVocabulary tokens then
        (halsteadLength tokens : ℝ) *
          Real.logb 2 (halsteadVocabulary tokens : ℝ)
      else 0 := by
  rw [calculateHalsteadVolume, foldl_halsteadStep]
  simp [halsteadVocabulary, halsteadLength, uniqueOperatorTexts,
    uniqueOperandTexts]

/-- The vocabulary never exceeds the length: each unique lexeme comes from at
least one counted token. -/
theorem halsteadVocabulary_le_length (tokens : List ScanToken) :
    halsteadVocabulary tokens ≤ halsteadLength tokens := by
  have h1 := List.toFinset_card_le
    ((tokens.filter (fun t => isOperatorTokenKind t.kind)).map ScanToken.text)
  have h2 := List.toFinset_card_le
    ((tokens.filter (fun t => isOperandTokenKind t.kind)).map ScanToken.text)
  simp only [List.length_map] at h1 h2
  unfold halsteadVocabulary halsteadLength uniqueOperatorTexts
    uniqueOperandTexts
  omega

/-- One line adds at most one comment line to the counter, and never
decreases it. -/
theorem commentStep_fst_le (st : Nat × Bool) (line : String) :
    st.1 ≤ (commentStep st line).1 ∧ (commentStep st line).1 ≤ st.1 + 1 := by
  simp only [commentStep]
  split_ifs <;> simp

/-- The comment-line counter grows by at most the number of scanned lines. -/
theorem foldl_commentStep_le (l : List String) (st : Nat × Bool) :
    (l.foldl commentStep st).1 ≤ st.1 + l.length := by
  induction l generalizing st with
  | nil => simp
  | cons x xs ih =>
    rw [List.foldl_cons]
    have h1 := ih (commentStep st x)
    have h2 := commentStep_fst_le st x
    simp only [List.length_cons]
    omega

mutual

/-- The orchestrator's traversal emits exactly the records of the qualifying
nodes of the subtree, in pre-order. -/
theorem traverse_eq_filterMap (tokenize : String → List ScanToken)
    (cd m : ℝ) : ∀ n : Node,
    traverse tokenize cd m n =
      (Node.preorder n).filterMap (analyzeNodeRecord tokenize cd m)
  | .mk k op nm tx bd cs => by
    have h := traverseList_eq_filterMap tokenize cd m cs
    rw [traverse.eq_def]
    rw [Node.preorder, List.filterMap_cons]
    by_cases hk : k = SyntaxKind.FunctionDeclaration ∨
        k = SyntaxKind.MethodDeclaration
    · cases bd <;>
        simp [analyzeNodeRecord, Node.kind, Node.body, hk, h]
    · simp [analyzeNodeRecord, Node.kind, Node.body, hk, h]

/-- Forest version of `traverse_eq_filterMap`. -/
theorem traverseList_eq_filterMap (tokenize : String → List ScanToken)
    (cd m : ℝ) : ∀ l : List Node,
    traverseList tokenize cd m l =
      (preorderList l).filterMap (analyzeNodeRecord tokenize cd m)
  | [] => by
    rw [traverseList.eq_def]
    simp [preorderList]
  | n :: ns => by
    rw [traverseList.eq_def]
    simp only []
    rw [preorderList, List.filterMap_append,
      traverse_eq_filterMap tokenize cd m n,
      traverseList_eq_filterMap tokenize cd m ns]

end

/-- Binding a successful `Except` value runs the continuation. -/
theorem exceptOk_bind {α β : Type} (a : α) (f : α → Except String β) :
    (do let x ← Except.ok a; f x) = f a := rfl

/-- Binding a failed `Except` value propagates the error. -/
theorem exceptError_bind {α β : Type} (e : String) (f : α → Except String β) :
    (do let x ← (Except.error e : Except String α); f x) = Except.error e :=
  rfl

/-! Claims -/

/-- C1: `maintainabilityIndex(cc, v, loc, cd, m)` equals
`max(0, (171 - 5.2 ln(safeV) - 0.23 cc - 16.2 ln(safeLOC)) * 100/171
+ m sin(sqrt(2.4 cd)))` with `safeV = v if v > 0 else 1` and
`safeLOC = loc if loc > 0 else 1`; consequently the result is never
negative, and when `m = 0` the bonus term is exactly 0 for every `cd`. -/
theorem maintainabilityIndex_formula (cc v loc cd m : ℝ) :
    calculateMaintainabilityIndex cc v loc cd m =
      max 0 ((171 - 5.2 * Real.log (if v > 0 then v else 1) - 0.23 * cc
        - 16.2 * Real.log (if loc > 0 then loc else 1)) * 100 / 171
        + m * Real.sin (Real.sqrt (2.4 * cd)))
    ∧ 0 ≤ calculateMaintainabilityIndex cc v loc cd m
    ∧ calculateMaintainabilityIndex cc v loc cd 0 =
      max 0 ((171 - 5.2 * Real.log (if v > 0 then v else 1) - 0.23 * cc
        - 16.2 * Real.log (if loc > 0 then loc else 1)) * 100 / 171) := by
  refine ⟨rfl, le_max_left _ _, ?_⟩
  simp [calculateMaintainabilityIndex]

/-- C3: `isDecisionPoint` returns true exactly for if-statements, the four
loop forms, case clauses, catch clauses, ternary conditional expressions, and
binary expressions whose operator is `&&` or `||`; for every other node it
returns false, and it depends only on the node's kind and operator token. -/
theorem isDecisionPoint_characterization (n : Node) :
    isDecisionPoint n = true ↔
      (n.kind = SyntaxKind.IfStatement ∨
       n.kind = SyntaxKind.ForStatement ∨
       n.kind = SyntaxKind.ForOfStatement ∨
       n.kind = SyntaxKind.ForInStatement ∨
       n.kind = SyntaxKind.WhileStatement ∨
       n.kind = SyntaxKind.DoStatement ∨
       n.kind = SyntaxKind.CaseClause ∨
       n.kind = SyntaxKind.CatchClause ∨
       n.kind = SyntaxKind.ConditionalExpression ∨
       (n.kind = SyntaxKind.BinaryExpression ∧
         (n.operatorTokenKind = some SyntaxKind.AmpersandAmpersandToken ∨
          n.operatorTokenKind = some SyntaxKind.BarBarToken))) := by
  obtain ⟨k, op, nm, tx, bd, cs⟩ := n
  simp only [isDecisionPoint, Node.kind, Node.operatorTokenKind]
  cases k <;> simp <;>
    (rcases op with _ | k2
     · simp
     · cases k2 <;> simp)

/-- C2: `cyclomaticComplexity(node)` equals 1 plus the number of nodes in
the subtree rooted at `node` (the node itself and every descendant, nested
function bodies included) that are decision points; hence it is always ≥ 1,
and equals exactly 1 when the subtree has no decision point. -/
theorem cyclomaticComplexity_spec (n : Node) :
    calculateCyclomaticComplexity n =
      1 + ((Node.preorder n).filter isDecisionPoint).length
    ∧ 1 ≤ calculateCyclomaticComplexity n
    ∧ (((Node.preorder n).filter isDecisionPoint).length = 0 →
        calculateCyclomaticComplexity n = 1) := by
  have h : calculateCyclomaticComplexity n =
      1 + ((Node.preorder n).filter isDecisionPoint).length := by
    rw [calculateCyclomaticComplexity, visit_eq]
  exact ⟨h, by omega, fun h0 => by omega⟩

/-- C4 counterexample: on the one-token stream `[x]` (a single identifier)
the volume is `1 * log2(1) = 0`, yet the stream does contain a token
classified as an operand — the claimed equivalence "volume = 0 iff no token
is classified as operator or operand" fails at this concrete input. -/
theorem halsteadVolume_zero_iff_counterexample :
    ¬ (calculateHalsteadVolume [⟨TokenKind.Identifier, "x"⟩] = 0 ↔
        ([⟨TokenKind.Identifier, "x"⟩] : List ScanToken).filter
          (fun t => isOperatorTokenKind t.kind || isOperandTokenKind t.kind)
          = []) := by
  intro h
  have hvol : calculateHalsteadVolume [⟨TokenKind.Identifier, "x"⟩] = 0 := by
    rw [calculateHalsteadVolume_eq]
    norm_num [halsteadVocabulary, halsteadLength, uniqueOperatorTexts,
      uniqueOperandTexts, isOperatorTokenKind, isOperandTokenKind,
      Real.logb_one]
  have hfil := h.mp hvol
  simp [isOperatorTokenKind, isOperandTokenKind] at hfil

/-- C4 amended: `halsteadVolume(text) = 0` iff the vocabulary (unique
operator lexemes plus unique operand lexemes) has at most one element — it
vanishes both when no token is classified and when exactly one distinct
lexeme is classified, since `log2(1) = 0`. -/
theorem halsteadVolume_eq_zero_iff (tokens : List ScanToken) :
    calculateHalsteadVolume tokens = 0 ↔ halsteadVocabulary tokens ≤ 1 := by
  rw [calculateHalsteadVolume_eq]
  rcases Nat.lt_or_ge (halsteadVocabulary tokens) 2 with h | h
  · rcases Nat.lt_or_ge (halsteadVocabulary tokens) 1 with h0 | h1
    · have hv : halsteadVocabulary tokens = 0 := by omega
      simp [hv]
    · have hv : halsteadVocabulary tokens = 1 := by omega
      rw [hv]
      simp [Real.logb_one]
  · have hlen : 2 ≤ halsteadLength tokens :=
      le_trans h (halsteadVocabulary_le_length tokens)
    have hlen0 : 0 < halsteadLength tokens := by omega
    have hv1 : 1 < halsteadVocabulary tokens := by omega
    have hpos : (0 : ℝ) < (halsteadLength tokens : ℝ) := by exact_mod_cast hlen0
    have hlog : 0 < Real.logb 2 (halsteadVocabulary tokens : ℝ) :=
      Real.logb_pos (by norm_num) (by exact_mod_cast hv1)
    rw [if_pos (by omega)]
    constructor
    · intro h0
      exact absurd h0 (ne_of_gt (mul_pos hpos hlog))
    · intro h1
      omega

/-- C5: `halsteadVolume` classifies the listed arithmetic, comparison,
logical, ternary-punctuation, increment/decrement and (compound-)assignment
token kinds as operators, identifiers and numeric/string/boolean literals as
operands, ignores everything else, and returns
`(totalOperators + totalOperands) * log2(uniqueOperators + uniqueOperands)`
when the vocabulary is positive, else 0; the result is always ≥ 0. -/
theorem halsteadVolume_spec (tokens : List ScanToken) :
    (∀ k : TokenKind, isOperatorTokenKind k = true ↔
      k ∈ [TokenKind.PlusToken, TokenKind.MinusToken, TokenKind.AsteriskToken,
        TokenKind.SlashToken, TokenKind.PercentToken,
        TokenKind.EqualsEqualsToken, TokenKind.EqualsEqualsEqualsToken,
        TokenKind.ExclamationEqualsToken,
        TokenKind.ExclamationEqualsEqualsToken, TokenKind.LessThanToken,
        TokenKind.GreaterThanToken, TokenKind.LessThanEqualsToken,
        TokenKind.GreaterThanEqualsToken, TokenKind.AmpersandAmpersandToken,
        TokenKind.BarBarToken, TokenKind.QuestionToken, TokenKind.ColonToken,
        TokenKind.PlusPlusToken, TokenKind.MinusMinusToken,
        TokenKind.EqualsToken, TokenKind.PlusEqualsToken,
        TokenKind.MinusEqualsToken, TokenKind.AsteriskEqualsToken,
        TokenKind.SlashEqualsToken, TokenKind.PercentEqualsToken])
    ∧ (∀ k : TokenKind, isOperandTokenKind k = true ↔
      k ∈ [TokenKind.Identifier, TokenKind.NumericLiteral,
        TokenKind.StringLiteral, TokenKind.TrueKeyword,
        TokenKind.FalseKeyword])
    ∧ calculateHalsteadVolume tokens =
        (if 0 < halsteadVocabulary tokens then
          (halsteadLength tokens : ℝ) *
            Real.logb 2 (halsteadVocabulary tokens : ℝ)
        else 0)
    ∧ 0 ≤ calculateHalsteadVolume tokens := by
  refine ⟨?_, ?_, calculateHalsteadVolume_eq tokens, ?_⟩
  · intro k
    cases k <;> simp [isOperatorTokenKind]
  · intro k
    cases k <;> simp [isOperandTokenKind]
  · rw [calculateHalsteadVolume_eq]
    by_cases h : 0 < halsteadVocabulary tokens
    · rw [if_pos h]
      exact mul_nonneg (Nat.cast_nonneg _)
        (Real.logb_nonneg (by norm_num) (by exact_mod_cast h))
    · rw [if_neg h]

/-- C6: `commentDensity(fileText)` is `commentLines / totalLines` as computed
by the single-pass `inBlockComment` line classifier, always lies in `[0,1]`,
returns 0 for a zero-line file by the zero-division guard, and returns 0 for
the empty file text. -/
theorem commentDensity_spec (s : String) :
    calculateCommentDensity s =
      (if 0 < (jsSplit s '\n').length then
        (((jsSplit s '\n').foldl commentStep (0, false)).1 : ℝ) /
          ((jsSplit s '\n').length : ℝ)
      else 0)
    ∧ 0 ≤ calculateCommentDensity s
    ∧ calculateCommentDensity s ≤ 1
    ∧ calculateCommentDensityLines [] = 0
    ∧ calculateCommentDensity "" = 0 := by
  refine ⟨rfl, ?_, ?_, by simp [calculateCommentDensityLines], ?_⟩
  · rw [calculateCommentDensity, calculateCommentDensityLines]
    split_ifs with h
    · positivity
    · norm_num
  · rw [calculateCommentDensity, calculateCommentDensityLines]
    split_ifs with h
    · have hle := foldl_commentStep_le (jsSplit s '\n') (0, false)
      rw [div_le_one (by exact_mod_cast h)]
      exact_mod_cast by omega
    · norm_num
  · have h1 : ((jsSplit "" '\n').foldl commentStep (0, false)).1 = 0 := by
      decide
    have h2 : (jsSplit "" '\n').length = 1 := by decide
    rw [calculateCommentDensity, calculateCommentDensityLines]
    rw [h1, h2]
    norm_num

/-- Witness for C2 at `leafNode`: its subtree has zero decision points and
its cyclomatic complexity is exactly 1. -/
theorem cyclomaticComplexity_spec_witness :
    calculateCyclomaticComplexity leafNode = 1 :=
  (cyclomaticComplexity_spec leafNode).2.2
    (by simp [leafNode, Node.preorder, preorderList, isDecisionPoint,
      Node.kind, Node.operatorTokenKind])

/-- C7: a successful `analyze` call produces exactly one `MetricRecord` per
function-declaration or method-declaration node that has a body, in pre-order
(document) order over the whole-file tree — descending into every child,
function bodies included, so nested declarations get their own records; a
bodyless declaration produces no record, and an unnamed declaration's record
is named `"<anonymous>"`. -/
theorem analyzeMethods_records_spec (tokenize : String → List ScanToken)
    (parse : String → Except String Node) (src : String) (root : Node)
    (m : ℝ) (hparse : parse src = Except.ok root) :
    analyzeMethods tokenize parse (Except.ok src) m =
      Except.ok
        ((Node.preorder root).filterMap (fun n =>
          if n.kind = SyntaxKind.FunctionDeclaration ∨
              n.kind = SyntaxKind.MethodDeclaration then
            Option.map
              (methodRecord tokenize (calculateCommentDensity src) m n) n.body
          else none),
        calculateCommentDensity src)
    ∧ ∀ n b : Node, n.name = none →
        (methodRecord tokenize (calculateCommentDensity src) m n b).methodName
          = "<anonymous>" := by
  constructor
  · rw [analyzeMethods, exceptOk_bind, hparse, exceptOk_bind]
    simp only [traverse_eq_filterMap, pure, Except.pure]
    rfl
  · intro n b hn
    simp [methodRecord, hn]

/-- Witness for C7: on a one-function file (an unnamed function declaration
with a body), analysis returns exactly one record and that record's name is
`"<anonymous>"`. -/
theorem analyzeMethods_records_spec_witness :
    analyzeMethods emptyScanner parseToAnonFn (Except.ok "") 5 =
      Except.ok
        ([methodRecord emptyScanner (calculateCommentDensity "") 5 anonFn
          leafNode], calculateCommentDensity "")
    ∧ (methodRecord emptyScanner (calculateCommentDensity "") 5 anonFn
        leafNode).methodName = "<anonymous>" := by
  have h := analyzeMethods_records_spec emptyScanner parseToAnonFn "" anonFn 5
    rfl
  refine ⟨?_, h.2 anonFn leafNode rfl⟩
  rw [h.1]
  simp [anonFn, leafNode, Node.preorder, preorderList, Node.kind, Node.body]

/-- C8: `analyze` either fails before producing any record — an unreadable
file propagates the read error, a parse failure propagates the parser's
error — or completes the whole analysis; when the parsed tree contains no
function/method declaration with a body, the call is not an error and
returns the empty record sequence together with the file's comment
density. -/
theorem analyzeMethods_error_spec (tokenize : String → List ScanToken)
    (parse : String → Except String Node)
    (readResult : Except String String) (m : ℝ) :
    (∀ e, readResult = Except.error e →
      analyzeMethods tokenize parse readResult m = Except.error e)
    ∧ (∀ s e, readResult = Except.ok s → parse s = Except.error e →
        analyzeMethods tokenize parse readResult m = Except.error e)
    ∧ (∀ s root, readResult = Except.ok s → parse s = Except.ok root →
        (∀ n, n ∈ Node.preorder root →
          (n.kind = SyntaxKind.FunctionDeclaration ∨
            n.kind = SyntaxKind.MethodDeclaration) → n.body = none) →
        analyzeMethods tokenize parse readResult m =
          Except.ok ([], calculateCommentDensity s)) := by
  refine ⟨?_, ?_, ?_⟩
  · intro e he
    rw [analyzeMethods, he, exceptError_bind]
  · intro s e hr hp
    rw [analyzeMethods, hr, exceptOk_bind, hp, exceptError_bind]
  · intro s root hr hp hnone
    rw [analyzeMethods, hr, exceptOk_bind, hp, exceptOk_bind]
    simp only [traverse_eq_filterMap, pure, Except.pure]
    have hnil : (Node.preorder root).filterMap
        (analyzeNodeRecord tokenize (calculateCommentDensity s) m) = [] := by
      rw [List.filterMap_eq_nil_iff]
      intro n hn
      rw [analyzeNodeRecord]
      split_ifs with hk
      · rw [hnone n hn hk]
        rfl
      · rfl
    rw [hnil]

/-- Witness for C8: a failed read propagates its error, and a tree with no
function/method declarations yields the empty record list with the file's
comment density. -/
theorem analyzeMethods_error_spec_witness :
    analyzeMethods emptyScanner parseToLeaf (Except.error "ENOENT") 5 =
      Except.error "ENOENT"
    ∧ analyzeMethods emptyScanner parseToLeaf (Except.ok "") 5 =
        Except.ok ([], calculateCommentDensity "") := by
  constructor
  · exact (analyzeMethods_error_spec emptyScanner parseToLeaf
      (Except.error "ENOENT") 5).1 "ENOENT" rfl
  · refine (analyzeMethods_error_spec emptyScanner parseToLeaf
      (Except.ok "") 5).2.2 "" leafNode rfl rfl ?_
    intro n hn
    simp [leafNode, Node.preorder, preorderList] at hn
    subst hn
    simp [leafNode, Node.kind]

/-- C9: `analyze` is deterministic — two calls on the same file content with
the same multiplier (and the same external collaborators) produce identical
record sequences and the same comment density; no hidden randomness or
time-dependent state influences the result. -/
theorem analyzeMethods_deterministic (tokenize : String → List ScanToken)
    (parse : String → Except String Node) (m : ℝ)
    (readResult₁ readResult₂ : Except String String)
    (h : readResult₁ = readResult₂) :
    analyzeMethods tokenize parse readResult₁ m =
      analyzeMethods tokenize parse readResult₂ m := by
  rw [h]

/-- Witness for C9: two calls on the same content coincide. -/
theorem analyzeMethods_deterministic_witness :
    analyzeMethods emptyScanner parseToLeaf (Except.ok "// a") 5 =
      analyzeMethods emptyScanner parseToLeaf (Except.ok "// a") 5 :=
  analyzeMethods_deterministic emptyScanner parseToLeaf 5
    (Except.ok "// a") (Except.ok "// a") rfl

/-- C10: with the `commentDensityMultiplier` argument omitted,
`analyzeMethods` uses the default value 5, so it returns the same result as
an explicit call with 5 on every input. -/
theorem analyzeMethodsDefault_eq (tokenize : String → List ScanToken)
    (parse : String → Except String Node)
    (readResult : Except String String) :
    analyzeMethodsDefault tokenize parse readResult =
      analyzeMethods tokenize parse readResult 5 := rfl

end Marvins
